import Mathlib

/-!
Shallow embedding of the record validation and quarantine pipeline of
`src/transform/data_quality.py` and `src/transform/glue_etl_job.py`.

Records are Spark rows with nullable fields (`Option`), numeric columns are
modelled as exact rationals, timestamps as unix seconds (`Int`).  Spark SQL
conditions follow Kleene three-valued logic: a comparison with a NULL operand
is NULL, and `DataFrame.filter` keeps only the rows whose condition is
literally TRUE.  We model a condition value as `Option Bool` with `none`
standing for SQL NULL.
-/

/-- SQL NULL-aware conjunction (Kleene logic, as Spark's `&`). -/
def and3 : Option Bool → Option Bool → Option Bool
  | some false, _ => some false
  | _, some false => some false
  | some true, b => b
  | none, _ => none

/-- SQL NULL-aware disjunction (Kleene logic, as Spark's `|`). -/
def or3 : Option Bool → Option Bool → Option Bool
  | some true, _ => some true
  | _, some true => some true
  | some false, b => b
  | none, _ => none

/-- SQL NULL-aware negation (as Spark's `~`). -/
def not3 : Option Bool → Option Bool
  | some b => some (!b)
  | none => none

/-- `col >= lit` on a nullable rational column: NULL if the value is NULL. -/
def geQ (v : Option ℚ) (c : ℚ) : Option Bool := v.map (fun x => decide (c ≤ x))

/-- `col <= lit` on a nullable rational column. -/
def leQ (v : Option ℚ) (c : ℚ) : Option Bool := v.map (fun x => decide (x ≤ c))

/-- `col > lit` on a nullable rational column. -/
def gtQ (v : Option ℚ) (c : ℚ) : Option Bool := v.map (fun x => decide (c < x))

/-- `a > b` on two nullable timestamp columns (unix seconds). -/
def gtTs (a b : Option Int) : Option Bool :=
  match a, b with
  | some x, some y => some (decide (y < x))
  | _, _ => none

/-- One taxi trip row.  Timestamps are unix seconds; numerics are rationals.
`trip_duration_minutes` and `tip_percentage` are the derived columns added by
`add_derived_columns`.  Metadata columns of the source that no rule reads
(`quality_check_timestamp`, `year`, `month`, `processed_at`, `etl_job_name`)
are tracked only as schema names, not as record fields. -/
structure Record where
  tpep_pickup_datetime : Option Int
  tpep_dropoff_datetime : Option Int
  passenger_count : Option ℚ
  trip_distance : Option ℚ
  fare_amount : Option ℚ
  tip_amount : Option ℚ
  tolls_amount : Option ℚ
  extra : Option ℚ
  mta_tax : Option ℚ
  total_amount : Option ℚ
  trip_duration_minutes : Option ℚ
  tip_percentage : Option ℚ
deriving DecidableEq, Repr

/-- A Spark DataFrame: a schema (list of column names) plus its rows.
`filter` never changes the schema; `withColumn` appends a name. -/
structure DataFrame where
  cols : List String
  rows : List Record
deriving DecidableEq, Repr

/-- An invalid-record batch produced by one rule.  The source tags every row
of the batch with the same literal `failure_reason` (and a wall-clock
`failed_at`), i.e. a batch-level constant, which we keep at the batch level so
that rows keep their identity. -/
structure TaggedBatch where
  reason : String
  rows : List Record
deriving DecidableEq, Repr

/-- The `self.quality_metrics` dict of `DataQualityChecker`: each key is
present (`some count`) once the corresponding rule has recorded, absent
(`none`) otherwise. -/
structure QualityMetrics where
  null_violations : Option Nat := none
  range_violations : Option Nat := none
  datetime_violations : Option Nat := none
  duration_violations : Option Nat := none
  tip_percentage_violations : Option Nat := none
deriving DecidableEq, Repr

/-- A fresh checker's empty metrics dict. -/
def freshMetrics : QualityMetrics := {}

/-- `sum(metrics.values())`: absent keys contribute nothing. -/
def QualityMetrics.sumValues (m : QualityMetrics) : Nat :=
  m.null_violations.getD 0 + m.range_violations.getD 0 + m.datetime_violations.getD 0 +
    m.duration_violations.getD 0 + m.tip_percentage_violations.getD 0

/-- `F.col(field).isNull()` for the required-field list (always a decisive
boolean in SQL). -/
def fieldIsNull : String → Record → Bool
  | "tpep_pickup_datetime", r => r.tpep_pickup_datetime.isNone
  | "tpep_dropoff_datetime", r => r.tpep_dropoff_datetime.isNone
  | "passenger_count", r => r.passenger_count.isNone
  | "trip_distance", r => r.trip_distance.isNone
  | "fare_amount", r => r.fare_amount.isNone
  | "total_amount", r => r.total_amount.isNone
  | _, _ => false

/-- Nullable numeric column access by name, for the range-checked fields. -/
def numField : String → Record → Option ℚ
  | "passenger_count", r => r.passenger_count
  | "trip_distance", r => r.trip_distance
  | "fare_amount", r => r.fare_amount
  | "total_amount", r => r.total_amount
  | "tip_amount", r => r.tip_amount
  | "tolls_amount", r => r.tolls_amount
  | "extra", r => r.extra
  | "mta_tax", r => r.mta_tax
  | _, _ => none

namespace DataQualityChecker

/-- `DataQualityChecker.REQUIRED_FIELDS`. -/
def REQUIRED_FIELDS : List String :=
  ["tpep_pickup_datetime", "tpep_dropoff_datetime", "passenger_count",
   "trip_distance", "fare_amount", "total_amount"]

/-- `DataQualityChecker.NUMERIC_RANGES` in dict insertion order. -/
def NUMERIC_RANGES : List (String × ℚ × ℚ) :=
  [("passenger_count", 1, 6), ("trip_distance", 1/10, 100),
   ("fare_amount", 1/100, 500), ("total_amount", 1/100, 1000),
   ("tip_amount", 0, 200), ("tolls_amount", 0, 100),
   ("extra", 0, 10), ("mta_tax", 0, 1)]

/-- The OR-fold of `F.col(f).isNull()` over the required fields present in the
schema.  The source builds it with `|`; an OR of decisive booleans is the
decisive `any`. -/
def nullCond (cols : List String) (r : Record) : Option Bool :=
  some ((REQUIRED_FIELDS.filter (· ∈ cols)).any (fun f => fieldIsNull f r))

/-- `check_null_values`: when no required field is in the schema the source's
`null_condition` stays `None` and the input is returned whole with an empty
invalid frame and no metric recorded. -/
def check_null_values (m : QualityMetrics) (df : DataFrame) :
    QualityMetrics × DataFrame × TaggedBatch :=
  if REQUIRED_FIELDS.filter (· ∈ df.cols) = [] then
    (m, df, ⟨"null_in_required_field", []⟩)
  else
    let invalid := df.rows.filter (fun r => nullCond df.cols r == some true)
    let valid := df.rows.filter (fun r => not3 (nullCond df.cols r) == some true)
    ({ m with null_violations := some invalid.length },
     ⟨df.cols, valid⟩, ⟨"null_in_required_field", invalid⟩)

/-- The AND-fold of `(col >= lo) & (col <= hi)` over the configured ranges
whose field is present in the schema, starting from `F.lit(True)`. -/
def rangeCond (cols : List String) (r : Record) : Option Bool :=
  NUMERIC_RANGES.foldl
    (fun acc p =>
      if p.1 ∈ cols then and3 acc (and3 (geQ (numField p.1 r) p.2.1) (leQ (numField p.1 r) p.2.2))
      else acc)
    (some true)

/-- `validate_numeric_ranges`. -/
def validate_numeric_ranges (m : QualityMetrics) (df : DataFrame) :
    QualityMetrics × DataFrame × TaggedBatch :=
  let invalid := df.rows.filter (fun r => not3 (rangeCond df.cols r) == some true)
  let valid := df.rows.filter (fun r => rangeCond df.cols r == some true)
  ({ m with range_violations := some invalid.length },
   ⟨df.cols, valid⟩, ⟨"numeric_range_violation", invalid⟩)

/-- The datetime rule condition `dropoff > pickup`. -/
def dtCond (r : Record) : Option Bool :=
  gtTs r.tpep_dropoff_datetime r.tpep_pickup_datetime

/-- `validate_datetime_logic`: skipped whole when either timestamp column is
missing from the schema. -/
def validate_datetime_logic (m : QualityMetrics) (df : DataFrame) :
    QualityMetrics × DataFrame × TaggedBatch :=
  if "tpep_pickup_datetime" ∉ df.cols ∨ "tpep_dropoff_datetime" ∉ df.cols then
    (m, df, ⟨"invalid_datetime_sequence", []⟩)
  else
    let invalid := df.rows.filter (fun r => not3 (dtCond r) == some true)
    let valid := df.rows.filter (fun r => dtCond r == some true)
    ({ m with datetime_violations := some invalid.length },
     ⟨df.cols, valid⟩, ⟨"invalid_datetime_sequence", invalid⟩)

/-- The duration rule condition for bounds `[mn, mx]`. -/
def durCond (mn mx : ℚ) (r : Record) : Option Bool :=
  and3 (geQ r.trip_duration_minutes mn) (leQ r.trip_duration_minutes mx)

/-- `validate_trip_duration` (defaults 1.0 and 300.0 minutes): skipped, with
no metric recorded, when `trip_duration_minutes` is not a column. -/
def validate_trip_duration (m : QualityMetrics) (df : DataFrame)
    (mn : ℚ := 1) (mx : ℚ := 300) : QualityMetrics × DataFrame × TaggedBatch :=
  if "trip_duration_minutes" ∉ df.cols then
    (m, df, ⟨"invalid_trip_duration", []⟩)
  else
    let invalid := df.rows.filter (fun r => not3 (durCond mn mx r) == some true)
    let valid := df.rows.filter (fun r => durCond mn mx r == some true)
    ({ m with duration_violations := some invalid.length },
     ⟨df.cols, valid⟩, ⟨"invalid_trip_duration", invalid⟩)

/-- The tip-percentage rule condition for bound `mx`. -/
def tipCond (mx : ℚ) (r : Record) : Option Bool :=
  and3 (geQ r.tip_percentage 0) (leQ r.tip_percentage mx)

/-- `validate_tip_percentage` (default max 100.0): skipped, with no metric
recorded, when `tip_percentage` is not a column. -/
def validate_tip_percentage (m : QualityMetrics) (df : DataFrame)
    (mx : ℚ := 100) : QualityMetrics × DataFrame × TaggedBatch :=
  if "tip_percentage" ∉ df.cols then
    (m, df, ⟨"invalid_tip_percentage", []⟩)
  else
    let invalid := df.rows.filter (fun r => not3 (tipCond mx r) == some true)
    let valid := df.rows.filter (fun r => tipCond mx r == some true)
    ({ m with tip_percentage_violations := some invalid.length },
     ⟨df.cols, valid⟩, ⟨"invalid_tip_percentage", invalid⟩)

/-- `run_all_checks`: the five rules in sequence, each fed the previous valid
frame; an invalid frame is appended to the result list only when non-empty;
the duration and tip rules run only when their derived column exists.  The
summary line divides by `initial_count`, so an empty input raises
`ZeroDivisionError` after all checks have run (the metrics mutations
survive; the return value is lost). -/
def run_all_checks (m : QualityMetrics) (df : DataFrame) :
    QualityMetrics × Except String (DataFrame × List TaggedBatch) :=
  let initial := df.rows.length
  let s1 := check_null_values m df
  let acc1 := if 0 < s1.2.2.rows.length then [s1.2.2] else []
  let s2 := validate_numeric_ranges s1.1 s1.2.1
  let acc2 := acc1 ++ (if 0 < s2.2.2.rows.length then [s2.2.2] else [])
  let s3 := validate_datetime_logic s2.1 s2.2.1
  let acc3 := acc2 ++ (if 0 < s3.2.2.rows.length then [s3.2.2] else [])
  let s4 := if "trip_duration_minutes" ∈ s3.2.1.cols then
      validate_trip_duration s3.1 s3.2.1 else (s3.1, s3.2.1, ⟨"invalid_trip_duration", []⟩)
  let acc4 := acc3 ++ (if 0 < s4.2.2.rows.length then [s4.2.2] else [])
  let s5 := if "tip_percentage" ∈ s4.2.1.cols then
      validate_tip_percentage s4.1 s4.2.1 else (s4.1, s4.2.1, ⟨"invalid_tip_percentage", []⟩)
  let acc5 := acc4 ++ (if 0 < s5.2.2.rows.length then [s5.2.2] else [])
  (s5.1,
   if initial = 0 then Except.error "ZeroDivisionError"
   else Except.ok (s5.2.1, acc5))

/-- `get_quality_metrics` returns a copy of the metrics dict. -/
def get_quality_metrics (m : QualityMetrics) : QualityMetrics := m

end DataQualityChecker

/-- A wall-clock date, i.e. `datetime.now()` restricted to what the DLQ path
uses. -/
structure Date where
  year : Int
  month : Int
deriving DecidableEq, Repr

/-- The destination path
`s3://{bucket}/dead-letter-queue/taxi/year={y}/month={m:02d}/run_id={rid}/`,
kept as its four parameters. -/
structure DlqPath where
  bucket : String
  year : Int
  month : Int
  run_id : String
deriving DecidableEq, Repr

/-- The quarantine store: per-path contents, each entry holding the `run_id`
literal stamped onto every combined row (`withColumn('run_id', lit(run_id))`)
and the rows themselves. -/
def Store := List (DlqPath × String × List Record)
deriving DecidableEq, Repr

/-- What `mode('overwrite')` leaves at the destination: the new contents
replace whatever was at that exact path; other paths are untouched. -/
def storeWrite (st : Store) (p : DlqPath) (rid : String) (rows : List Record) : Store :=
  (p, rid, rows) :: (st : List _).filter (fun e => !(e.1 == p))

/-- The contents now persisted at a path. -/
def storeLookup (st : Store) (p : DlqPath) : Option (String × List Record) :=
  ((st : List _).find? (fun e => e.1 == p)).map (·.2)

/-- `combined_invalid`: skip empty frames, start with the first non-empty one
and union the rest (row concatenation in list order). -/
def combineInvalid (batches : List TaggedBatch) : List Record :=
  (batches.filter (fun b => !b.rows.isEmpty)).flatMap (·.rows)

namespace DataQualityChecker

/-- `DataQualityChecker.write_to_dead_letter_queue`: no write when the list is
empty or every frame is empty; otherwise combine, default the run id from the
wall clock, and write with `mode('overwrite')`.  A sink failure is printed and
then **re-raised** (`raise`), so it propagates to the caller; the store is
then left unchanged.  `sinkOk` models whether the parquet write succeeds. -/
def write_to_dead_letter_queue (sinkOk : Bool) (st : Store) (bucket : String)
    (now : Date) (nowRunId : String) (run_id : Option String)
    (invalid_dfs : List TaggedBatch) : Except String Store :=
  if invalid_dfs.isEmpty || invalid_dfs.all (fun b => b.rows.isEmpty) then
    Except.ok st
  else
    let combined := combineInvalid invalid_dfs
    if combined.isEmpty then Except.ok st
    else
      let rid := run_id.getD nowRunId
      let path : DlqPath := ⟨bucket, now.year, now.month, rid⟩
      if sinkOk then Except.ok (storeWrite st path rid combined)
      else Except.error "Error writing to DLQ"

end DataQualityChecker

namespace GlueETL

/-- `add_derived_columns` applied to one row: `trip_duration_minutes` is the
unix-second difference over 60 (NULL when either timestamp is NULL);
`tip_percentage` is `when(fare > 0, tip / fare * 100).otherwise(0)` — the
branch value is NULL when the tip is NULL, and the otherwise-branch fires when
`fare > 0` is not TRUE (fare non-positive or NULL). -/
def deriveRecord (r : Record) : Record :=
  { r with
    trip_duration_minutes :=
      match r.tpep_dropoff_datetime, r.tpep_pickup_datetime with
      | some d, some p => some (((d : ℚ) - (p : ℚ)) / 60)
      | _, _ => none
    tip_percentage :=
      if gtQ r.fare_amount 0 == some true then
        match r.tip_amount, r.fare_amount with
        | some t, some f => some (t / f * 100)
        | _, _ => none
      else some 0 }

/-- The schema names `add_derived_columns` appends (the metadata columns carry
wall-clock stamps and constants that no rule reads, so only their names are
tracked). -/
def derivedCols : List String :=
  ["trip_duration_minutes", "tip_percentage", "quality_check_timestamp",
   "year", "month", "processed_at", "etl_job_name"]

/-- `add_derived_columns`: a chain of `withColumn` calls — every row is kept
and rewritten, no filtering. -/
def add_derived_columns (df : DataFrame) : DataFrame :=
  ⟨df.cols ++ derivedCols, df.rows.map deriveRecord⟩

/-- The filter condition of `filter_invalid_records`:
`(distance > 0) & (fare > 0) & (passengers > 0) & (dropoff > pickup)`. -/
def basicCond (r : Record) : Option Bool :=
  and3 (and3 (and3 (gtQ r.trip_distance 0) (gtQ r.fare_amount 0))
    (gtQ r.passenger_count 0)) (gtTs r.tpep_dropoff_datetime r.tpep_pickup_datetime)

/-- `filter_invalid_records`: a bare `df.filter(...)` — rows failing (or
NULL-ing) the condition are dropped with no tagging, no invalid frame, no
metric, no quarantine write. -/
def filter_invalid_records (df : DataFrame) : DataFrame :=
  ⟨df.cols, df.rows.filter (fun r => basicCond r == some true)⟩

/-- The required-field list of the glue job's inline null check. -/
def glueRequiredFields : List String :=
  ["tpep_pickup_datetime", "tpep_dropoff_datetime", "passenger_count",
   "trip_distance", "fare_amount"]

/-- The OR-fold of `isNull` over the glue job's required fields present in the
schema. -/
def glueNullCond (cols : List String) (r : Record) : Option Bool :=
  some ((glueRequiredFields.filter (· ∈ cols)).any (fun f => fieldIsNull f r))

/-- The glue job's hardcoded range condition (passenger 1–6, distance
0.1–100, fare 0.01–500), a left-associated `&` chain. -/
def glueRangeCond (r : Record) : Option Bool :=
  and3 (and3 (and3 (and3 (and3 (geQ r.passenger_count 1) (leQ r.passenger_count 6))
    (geQ r.trip_distance (1/10))) (leQ r.trip_distance 100))
    (geQ r.fare_amount (1/100))) (leQ r.fare_amount 500)

/-- `run_data_quality_checks` of the glue job: inline null, range, duration
and tip checks (no datetime rule, no metrics dict); invalid frames appended
only when non-empty; the summary divides by `initial_count`, raising
`ZeroDivisionError` on an empty input. -/
def run_data_quality_checks (df : DataFrame) :
    Except String (DataFrame × List TaggedBatch) :=
  let initial := df.rows.length
  let p1 :=
    if glueRequiredFields.filter (· ∈ df.cols) = [] then (df, ([] : List TaggedBatch))
    else
      let invalid := df.rows.filter (fun r => glueNullCond df.cols r == some true)
      let kept := df.rows.filter (fun r => not3 (glueNullCond df.cols r) == some true)
      (⟨df.cols, kept⟩, if 0 < invalid.length then [⟨"null_in_required_field", invalid⟩] else [])
  let d1 := p1.1
  let invalid2 := d1.rows.filter (fun r => not3 (glueRangeCond r) == some true)
  let d2 : DataFrame := ⟨d1.cols, d1.rows.filter (fun r => glueRangeCond r == some true)⟩
  let acc2 := p1.2 ++ (if 0 < invalid2.length then [⟨"numeric_range_violation", invalid2⟩] else [])
  let p3 :=
    if "trip_duration_minutes" ∈ d2.cols then
      let invalid := d2.rows.filter (fun r => not3 (DataQualityChecker.durCond 1 300 r) == some true)
      let kept := d2.rows.filter (fun r => DataQualityChecker.durCond 1 300 r == some true)
      ((⟨d2.cols, kept⟩ : DataFrame), if 0 < invalid.length then [⟨"invalid_trip_duration", invalid⟩] else [])
    else (d2, [])
  let acc3 := acc2 ++ p3.2
  let p4 :=
    if "tip_percentage" ∈ p3.1.cols then
      let invalid := p3.1.rows.filter (fun r => not3 (DataQualityChecker.tipCond 100 r) == some true)
      let kept := p3.1.rows.filter (fun r => DataQualityChecker.tipCond 100 r == some true)
      ((⟨p3.1.cols, kept⟩ : DataFrame), if 0 < invalid.length then [⟨"invalid_tip_percentage", invalid⟩] else [])
    else (p3.1, [])
  let acc4 := acc3 ++ p4.2
  if initial = 0 then Except.error "ZeroDivisionError"
  else Except.ok (p4.1, acc4)

/-- The glue job's `write_to_dead_letter_queue`: same guard, combination
(`unionByName` with `allowMissingColumns`) and overwrite-mode write as the
checker's, but a sink failure is caught and logged and the function returns
normally with the store unchanged — the job continues. -/
def write_to_dead_letter_queue (sinkOk : Bool) (st : Store) (bucket : String)
    (run_id : String) (now : Date) (invalid_dfs : List TaggedBatch) :
    Except String Store :=
  if invalid_dfs.isEmpty || invalid_dfs.all (fun b => b.rows.isEmpty) then
    Except.ok st
  else
    let combined := combineInvalid invalid_dfs
    if combined.isEmpty then Except.ok st
    else
      let path : DlqPath := ⟨bucket, now.year, now.month, run_id⟩
      if sinkOk then Except.ok (storeWrite st path run_id combined)
      else Except.ok st

/-- Steps 5 and 6 of `main`: write the DLQ (glue variant), then write the
accepted stream; the returned list holds the row sets delivered to the
accepted-output sink. -/
def writePhase (sinkOk : Bool) (st : Store) (bucket : String) (run_id : String)
    (now : Date) (df : DataFrame) (invalid_dfs : List TaggedBatch) :
    Except String (Store × List (List Record)) :=
  (write_to_dead_letter_queue sinkOk st bucket run_id now invalid_dfs).bind
    (fun st2 => Except.ok (st2, [df.rows]))

end GlueETL

/-- One rule of the sequential chain: its rejection reason and its pass
condition (NULL-valued on a row when Spark would drop the row from both the
valid and the invalid side). -/
structure RuleSpec where
  reason : String
  cond : Record → Option Bool

/-- The sequential chain shared by `run_all_checks` and the glue job's
`run_data_quality_checks`: each rule filters the previous rule's valid rows,
and its invalid frame joins the output list only when non-empty. -/
def runRules : List RuleSpec → List Record → List Record × List TaggedBatch
  | [], rows => (rows, [])
  | rule :: rs, rows =>
    let invalid := rows.filter (fun r => rule.cond r == some false)
    let rest := runRules rs (rows.filter (fun r => rule.cond r == some true))
    (rest.1, (if 0 < invalid.length then [⟨rule.reason, invalid⟩] else []) ++ rest.2)

/-- Effective pass condition of `check_null_values` on a given schema: passes
everything when no required field is present, otherwise the negation of the
null condition (always decisive). -/
def effPassNull (cols : List String) (r : Record) : Option Bool :=
  if DataQualityChecker.REQUIRED_FIELDS.filter (· ∈ cols) = [] then some true
  else not3 (DataQualityChecker.nullCond cols r)

/-- Effective pass condition of `validate_numeric_ranges`. -/
def effPassRange (cols : List String) (r : Record) : Option Bool :=
  DataQualityChecker.rangeCond cols r

/-- Effective pass condition of `validate_datetime_logic`: passes everything
when either timestamp column is missing. -/
def effPassDatetime (cols : List String) (r : Record) : Option Bool :=
  if "tpep_pickup_datetime" ∉ cols ∨ "tpep_dropoff_datetime" ∉ cols then some true
  else DataQualityChecker.dtCond r

/-- Effective pass condition of `validate_trip_duration` (defaults). -/
def effPassDuration (cols : List String) (r : Record) : Option Bool :=
  if "trip_duration_minutes" ∉ cols then some true
  else DataQualityChecker.durCond 1 300 r

/-- Effective pass condition of `validate_tip_percentage` (default). -/
def effPassTip (cols : List String) (r : Record) : Option Bool :=
  if "tip_percentage" ∉ cols then some true
  else DataQualityChecker.tipCond 100 r

/-- The five rules of `DataQualityChecker.run_all_checks` in their fixed
order, for a given input schema. -/
def dqRules (cols : List String) : List RuleSpec :=
  [⟨"null_in_required_field", effPassNull cols⟩,
   ⟨"numeric_range_violation", effPassRange cols⟩,
   ⟨"invalid_datetime_sequence", effPassDatetime cols⟩,
   ⟨"invalid_trip_duration", effPassDuration cols⟩,
   ⟨"invalid_tip_percentage", effPassTip cols⟩]

/-- Effective pass condition of the glue job's inline null check. -/
def effPassGlueNull (cols : List String) (r : Record) : Option Bool :=
  if GlueETL.glueRequiredFields.filter (· ∈ cols) = [] then some true
  else not3 (GlueETL.glueNullCond cols r)

/-- The four rules of the glue job's `run_data_quality_checks` in order. -/
def glueRules (cols : List String) : List RuleSpec :=
  [⟨"null_in_required_field", effPassGlueNull cols⟩,
   ⟨"numeric_range_violation", fun r => GlueETL.glueRangeCond r⟩,
   ⟨"invalid_trip_duration", effPassDuration cols⟩,
   ⟨"invalid_tip_percentage", effPassTip cols⟩]

/-- Total row count of a batch list. -/
def sumBatches (bs : List TaggedBatch) : Nat := (bs.map (fun b => b.rows.length)).sum

/-- The ten raw taxi columns, before any derived column is added. -/
def baseCols : List String :=
  ["tpep_pickup_datetime", "tpep_dropoff_datetime", "passenger_count",
   "trip_distance", "fare_amount", "tip_amount", "tolls_amount", "extra",
   "mta_tax", "total_amount"]

/-- A row that satisfies every rule: a 10-minute trip with in-range amounts. -/
def recValid : Record :=
  { tpep_pickup_datetime := some 0, tpep_dropoff_datetime := some 600,
    passenger_count := some 1, trip_distance := some 1, fare_amount := some 10,
    tip_amount := some 1, tolls_amount := some 0, extra := some 0,
    mta_tax := some (1/2), total_amount := some 12,
    trip_duration_minutes := none, tip_percentage := none }

/-- Like `recValid` but with a NULL `tip_amount` — a null in a non-required,
range-checked field. -/
def recNullTip : Record := { recValid with tip_amount := none }

/-- Like `recValid` but with dropoff strictly before pickup. -/
def recBadDt : Record :=
  { recValid with tpep_pickup_datetime := some 600, tpep_dropoff_datetime := some 0 }

/-- Like `recValid` but with a zero trip distance. -/
def recBadDist : Record := { recValid with trip_distance := some 0 }

/-- One-row frame whose only record carries a NULL `tip_amount`. -/
def dfNullTip : DataFrame := ⟨baseCols, [recNullTip]⟩

/-! ### General lemmas about three-valued filtering -/

theorem not3_beq_true (x : Option Bool) : (not3 x == some true) = (x == some false) := by
  rcases x with _ | b
  · rfl
  · cases b <;> rfl

theorem not3_beq_false (x : Option Bool) : (not3 x == some false) = (x == some true) := by
  rcases x with _ | b
  · rfl
  · cases b <;> rfl

theorem filter_pair_le {α : Type} (cond : α → Option Bool) (rows : List α) :
    (rows.filter (fun r => cond r == some true)).length
      + (rows.filter (fun r => cond r == some false)).length ≤ rows.length := by
  induction rows with
  | nil => simp
  | cons a l ih =>
    rcases h : cond a with _ | b
    · simp only [List.filter_cons, h]
      simp
      omega
    · cases b <;> simp only [List.filter_cons, h] <;> simp <;> omega

theorem filter_pair_eq {α : Type} (cond : α → Option Bool) (rows : List α)
    (h : ∀ r ∈ rows, cond r ≠ none) :
    (rows.filter (fun r => cond r == some true)).length
      + (rows.filter (fun r => cond r == some false)).length = rows.length := by
  induction rows with
  | nil => simp
  | cons a l ih =>
    have hl : ∀ r ∈ l, cond r ≠ none := fun r hr => h r (List.mem_cons_of_mem a hr)
    have ihl := ih hl
    rcases hc : cond a with _ | b
    · exact absurd hc (h a (List.mem_cons_self a l))
    · cases b <;> simp only [List.filter_cons, hc] <;> simp <;> omega

theorem filter_pair_disj {α : Type} (cond : α → Option Bool) (rows : List α) (r : α)
    (h1 : r ∈ rows.filter (fun x => cond x == some true)) :
    r ∉ rows.filter (fun x => cond x == some false) := by
  intro h2
  have e1 := (List.mem_filter.mp h1).2
  have e2 := (List.mem_filter.mp h2).2
  rw [beq_iff_eq] at e1 e2
  rw [e1] at e2
  exact Option.some.inj e2 |> Bool.true_eq_false.mp

/-! ### Lemmas about the sequential rule chain -/

theorem sumBatches_append (b c : List TaggedBatch) :
    sumBatches (b ++ c) = sumBatches b + sumBatches c := by
  simp [sumBatches]

theorem sumBatches_opt (reason : String) (inv : List Record) :
    sumBatches (if 0 < inv.length then [⟨reason, inv⟩] else []) = inv.length := by
  split
  · simp [sumBatches]
  · simp [sumBatches]; omega

theorem runRules_notin (rs : List RuleSpec) (rows : List Record) (r : Record)
    (hr : r ∉ rows) :
    r ∉ (runRules rs rows).1 ∧ ∀ b ∈ (runRules rs rows).2, r ∉ b.rows := by
  induction rs generalizing rows with
  | nil => exact ⟨hr, by simp [runRules]⟩
  | cons rule rs ih =>
    have hv : r ∉ rows.filter (fun x => rule.cond x == some true) :=
      fun hmem => hr (List.mem_filter.mp hmem).1
    have hinv : r ∉ rows.filter (fun x => rule.cond x == some false) :=
      fun hmem => hr (List.mem_filter.mp hmem).1
    have rest := ih _ hv
    refine ⟨rest.1, ?_⟩
    intro b hb
    simp only [runRules] at hb
    rcases List.mem_append.mp hb with h | h
    · rcases (by split at h <;> simp_all : b = ⟨rule.reason,
        rows.filter (fun x => rule.cond x == some false)⟩) with rfl
      exact hinv
    · exact rest.2 b h

theorem runRules_batch_cases (rs : List RuleSpec) (rows : List Record)
    (b : TaggedBatch) (hb : b ∈ (runRules rs rows).2) :
    ∀ r ∈ b.rows, r ∈ rows := by
  induction rs generalizing rows with
  | nil => simp [runRules] at hb
  | cons rule rs ih =>
    simp only [runRules] at hb
    rcases List.mem_append.mp hb with h | h
    · rcases (by split at h <;> simp_all : b = ⟨rule.reason,
        rows.filter (fun x => rule.cond x == some false)⟩) with rfl
      exact fun r hr => (List.mem_filter.mp hr).1
    · exact fun r hr => (List.mem_filter.mp (ih _ h r hr)).1

theorem runRules_valid_sub (rs : List RuleSpec) (rows : List Record) :
    ∀ r ∈ (runRules rs rows).1, r ∈ rows := by
  induction rs generalizing rows with
  | nil => simp [runRules]
  | cons rule rs ih =>
    intro r hr
    simp only [runRules] at hr
    exact (List.mem_filter.mp (ih _ r hr)).1

theorem runRules_count_le (rs : List RuleSpec) (rows : List Record) :
    (runRules rs rows).1.length + sumBatches (runRules rs rows).2 ≤ rows.length := by
  induction rs generalizing rows with
  | nil => simp [runRules, sumBatches]
  | cons rule rs ih =>
    have h1 := filter_pair_le rule.cond rows
    have h2 := ih (rows.filter (fun r => rule.cond r == some true))
    simp only [runRules, sumBatches_append, sumBatches_opt]
    omega

theorem runRules_count_eq (rs : List RuleSpec) (rows : List Record)
    (h : ∀ rule ∈ rs, ∀ r ∈ rows, rule.cond r ≠ none) :
    (runRules rs rows).1.length + sumBatches (runRules rs rows).2 = rows.length := by
  induction rs generalizing rows with
  | nil => simp [runRules, sumBatches]
  | cons rule rs ih =>
    have h1 := filter_pair_eq rule.cond rows (h rule (List.mem_cons_self rule rs))
    have hsub : ∀ ru ∈ rs, ∀ r ∈ rows.filter (fun x => rule.cond x == some true),
        ru.cond r ≠ none :=
      fun ru hru r hr => h ru (List.mem_cons_of_mem rule hru) r (List.mem_filter.mp hr).1
    have h2 := ih _ hsub
    simp only [runRules, sumBatches_append, sumBatches_opt]
    omega

theorem runRules_first_fail (rs : List RuleSpec) (rows : List Record) (r : Record)
    (i : Nat) (hi : i < rs.length)
    (hpass : ∀ j, (hj : j < i) → (rs.get ⟨j, Nat.lt_trans hj hi⟩).cond r = some true)
    (hfail : (rs.get ⟨i, hi⟩).cond r = some false) (hr : r ∈ rows) :
    (runRules rs rows).2.countP (fun b => decide (r ∈ b.rows)) = 1 ∧
      ∀ b ∈ (runRules rs rows).2, r ∈ b.rows → b.reason = (rs.get ⟨i, hi⟩).reason := by
  induction rs generalizing rows i with
  | nil => exact absurd hi (Nat.not_lt_zero i)
  | cons rule rs ih =>
    cases i with
    | zero =>
      have hf : rule.cond r = some false := hfail
      have hinv : r ∈ rows.filter (fun x => rule.cond x == some false) :=
        List.mem_filter.mpr ⟨hr, by simp [hf]⟩
      have hnv : r ∉ rows.filter (fun x => rule.cond x == some true) := by
        intro hm
        have := (List.mem_filter.mp hm).2
        simp [hf] at this
      have hrest := runRules_notin rs _ r hnv
      have hpos : 0 < (rows.filter (fun x => rule.cond x == some false)).length :=
        List.length_pos.mpr (List.ne_nil_of_mem hinv)
      constructor
      · simp only [runRules, List.countP_append, if_pos hpos]
        have hz : (runRules rs (rows.filter (fun x => rule.cond x == some true))).2.countP
            (fun b => decide (r ∈ b.rows)) = 0 :=
          List.countP_eq_zero.mpr (fun b hb => by simpa using hrest.2 b hb)
        rw [hz]
        simp [List.countP_cons, hinv]
      · intro b hb hrb
        simp only [runRules] at hb
        rcases List.mem_append.mp hb with h | h
        · rcases (by split at h <;> simp_all : b = ⟨rule.reason,
            rows.filter (fun x => rule.cond x == some false)⟩) with rfl
          rfl
        · exact absurd hrb (hrest.2 b h)
    | succ i =>
      have h0 : rule.cond r = some true := hpass 0 (Nat.succ_pos i)
      have hv : r ∈ rows.filter (fun x => rule.cond x == some true) :=
        List.mem_filter.mpr ⟨hr, by simp [h0]⟩
      have hni : r ∉ rows.filter (fun x => rule.cond x == some false) := by
        intro hm
        have := (List.mem_filter.mp hm).2
        simp [h0] at this
      have hi2 : i < rs.length := Nat.lt_of_succ_lt_succ hi
      have hpass2 : ∀ j, (hj : j < i) → (rs.get ⟨j, Nat.lt_trans hj hi2⟩).cond r = some true :=
        fun j hj => hpass (j + 1) (Nat.succ_lt_succ hj)
      have hfail2 : (rs.get ⟨i, hi2⟩).cond r = some false := hfail
      have hrec := ih _ i hi2 hpass2 hfail2 hv
      constructor
      · simp only [runRules, List.countP_append]
        rw [hrec.1]
        have hz : (if 0 < (rows.filter (fun x => rule.cond x == some false)).length
            then [(⟨rule.reason, rows.filter (fun x => rule.cond x == some false)⟩ : TaggedBatch)]
            else []).countP (fun b => decide (r ∈ b.rows)) = 0 := by
          split
          · simp [List.countP_cons, hni]
          · rfl
        omega
      · intro b hb hrb
        simp only [runRules] at hb
        rcases List.mem_append.mp hb with h | h
        · rcases (by split at h <;> simp_all : b = ⟨rule.reason,
            rows.filter (fun x => rule.cond x == some false)⟩) with rfl
          exact absurd hrb hni
        · exact hrec.2 b h hrb

/-! ### Each rule evaluation, described by its effective pass condition -/

theorem check_null_values_eq (m : QualityMetrics) (df : DataFrame) :
    DataQualityChecker.check_null_values m df =
      (if DataQualityChecker.REQUIRED_FIELDS.filter (· ∈ df.cols) = [] then m
       else { m with null_violations :=
         (some ((df.rows.filter (fun r => effPassNull df.cols r == some false)).length)) },
       ⟨df.cols, df.rows.filter (fun r => effPassNull df.cols r == some true)⟩,
       ⟨"null_in_required_field",
        df.rows.filter (fun r => effPassNull df.cols r == some false)⟩) := by
  unfold DataQualityChecker.check_null_values effPassNull
  split
  · next h => simp [h]
  · next h => simp [h, not3_beq_false]

theorem validate_numeric_ranges_eq (m : QualityMetrics) (df : DataFrame) :
    DataQualityChecker.validate_numeric_ranges m df =
      ({ m with range_violations :=
         (some ((df.rows.filter (fun r => effPassRange df.cols r == some false)).length)) },
       ⟨df.cols, df.rows.filter (fun r => effPassRange df.cols r == some true)⟩,
       ⟨"numeric_range_violation",
        df.rows.filter (fun r => effPassRange df.cols r == some false)⟩) := by
  unfold DataQualityChecker.validate_numeric_ranges effPassRange
  simp [not3_beq_true]

theorem validate_datetime_logic_eq (m : QualityMetrics) (df : DataFrame) :
    DataQualityChecker.validate_datetime_logic m df =
      (if "tpep_pickup_datetime" ∉ df.cols ∨ "tpep_dropoff_datetime" ∉ df.cols then m
       else { m with datetime_violations :=
         (some ((df.rows.filter (fun r => effPassDatetime df.cols r == some false)).length)) },
       ⟨df.cols, df.rows.filter (fun r => effPassDatetime df.cols r == some true)⟩,
       ⟨"invalid_datetime_sequence",
        df.rows.filter (fun r => effPassDatetime df.cols r == some false)⟩) := by
  unfold DataQualityChecker.validate_datetime_logic effPassDatetime
  split
  · next h => simp [h]
  · next h => simp [h, not3_beq_true]

theorem validate_trip_duration_eq (m : QualityMetrics) (df : DataFrame) :
    DataQualityChecker.validate_trip_duration m df =
      (if "trip_duration_minutes" ∉ df.cols then m
       else { m with duration_violations :=
         (some ((df.rows.filter (fun r => effPassDuration df.cols r == some false)).length)) },
       ⟨df.cols, df.rows.filter (fun r => effPassDuration df.cols r == some true)⟩,
       ⟨"invalid_trip_duration",
        df.rows.filter (fun r => effPassDuration df.cols r == some false)⟩) := by
  unfold DataQualityChecker.validate_trip_duration effPassDuration
  split
  · next h => simp [h]
  · next h => simp [h, not3_beq_true]

theorem validate_tip_percentage_eq (m : QualityMetrics) (df : DataFrame) :
    DataQualityChecker.validate_tip_percentage m df =
      (if "tip_percentage" ∉ df.cols then m
       else { m with tip_percentage_violations :=
         (some ((df.rows.filter (fun r => effPassTip df.cols r == some false)).length)) },
       ⟨df.cols, df.rows.filter (fun r => effPassTip df.cols r == some true)⟩,
       ⟨"invalid_tip_percentage",
        df.rows.filter (fun r => effPassTip df.cols r == some false)⟩) := by
  unfold DataQualityChecker.validate_tip_percentage effPassTip
  split
  · next h => simp [h]
  · next h => simp [h, not3_beq_true]


theorem check_null_values_snd (m : QualityMetrics) (df : DataFrame) :
    (DataQualityChecker.check_null_values m df).2 =
      (⟨df.cols, df.rows.filter (fun r => effPassNull df.cols r == some true)⟩,
       ⟨"null_in_required_field",
        df.rows.filter (fun r => effPassNull df.cols r == some false)⟩) := by
  rw [check_null_values_eq]

theorem validate_numeric_ranges_snd (m : QualityMetrics) (df : DataFrame) :
    (DataQualityChecker.validate_numeric_ranges m df).2 =
      (⟨df.cols, df.rows.filter (fun r => effPassRange df.cols r == some true)⟩,
       ⟨"numeric_range_violation",
        df.rows.filter (fun r => effPassRange df.cols r == some false)⟩) := by
  rw [validate_numeric_ranges_eq]

theorem validate_datetime_logic_snd (m : QualityMetrics) (df : DataFrame) :
    (DataQualityChecker.validate_datetime_logic m df).2 =
      (⟨df.cols, df.rows.filter (fun r => effPassDatetime df.cols r == some true)⟩,
       ⟨"invalid_datetime_sequence",
        df.rows.filter (fun r => effPassDatetime df.cols r == some false)⟩) := by
  rw [validate_datetime_logic_eq]

theorem validate_trip_duration_snd (m : QualityMetrics) (df : DataFrame) :
    (DataQualityChecker.validate_trip_duration m df).2 =
      (⟨df.cols, df.rows.filter (fun r => effPassDuration df.cols r == some true)⟩,
       ⟨"invalid_trip_duration",
        df.rows.filter (fun r => effPassDuration df.cols r == some false)⟩) := by
  rw [validate_trip_duration_eq]

theorem validate_tip_percentage_snd (m : QualityMetrics) (df : DataFrame) :
    (DataQualityChecker.validate_tip_percentage m df).2 =
      (⟨df.cols, df.rows.filter (fun r => effPassTip df.cols r == some true)⟩,
       ⟨"invalid_tip_percentage",
        df.rows.filter (fun r => effPassTip df.cols r == some false)⟩) := by
  rw [validate_tip_percentage_eq]

/-! ### `run_all_checks` as the generic chain -/

theorem run_all_checks_result (m : QualityMetrics) (df : DataFrame) :
    (DataQualityChecker.run_all_checks m df).2 =
      if df.rows.length = 0 then Except.error "ZeroDivisionError"
      else Except.ok (⟨df.cols, (runRules (dqRules df.cols) df.rows).1⟩,
        (runRules (dqRules df.cols) df.rows).2) := by
  unfold DataQualityChecker.run_all_checks
  simp only [check_null_values_snd]
  simp only [validate_numeric_ranges_snd]
  simp only [validate_datetime_logic_snd]
  by_cases hdur : "trip_duration_minutes" ∈ df.cols <;>
    by_cases htip : "tip_percentage" ∈ df.cols <;>
    simp only [hdur, htip, if_true, if_false, validate_trip_duration_snd,
      validate_tip_percentage_snd, runRules, dqRules, List.append_assoc,
      List.append_nil, List.nil_append] <;>
    simp [effPassDuration, effPassTip, hdur, htip]

theorem check_null_values_fst (m : QualityMetrics) (df : DataFrame) :
    (DataQualityChecker.check_null_values m df).1 =
      if DataQualityChecker.REQUIRED_FIELDS.filter (· ∈ df.cols) = [] then m
      else { m with null_violations :=
        (some ((df.rows.filter (fun r => effPassNull df.cols r == some false)).length)) } := by
  rw [check_null_values_eq]

theorem validate_numeric_ranges_fst (m : QualityMetrics) (df : DataFrame) :
    (DataQualityChecker.validate_numeric_ranges m df).1 =
      { m with range_violations :=
        (some ((df.rows.filter (fun r => effPassRange df.cols r == some false)).length)) } := by
  rw [validate_numeric_ranges_eq]

theorem validate_datetime_logic_fst (m : QualityMetrics) (df : DataFrame) :
    (DataQualityChecker.validate_datetime_logic m df).1 =
      if "tpep_pickup_datetime" ∉ df.cols ∨ "tpep_dropoff_datetime" ∉ df.cols then m
      else { m with datetime_violations :=
        (some ((df.rows.filter (fun r => effPassDatetime df.cols r == some false)).length)) } := by
  rw [validate_datetime_logic_eq]

theorem validate_trip_duration_fst (m : QualityMetrics) (df : DataFrame) :
    (DataQualityChecker.validate_trip_duration m df).1 =
      if "trip_duration_minutes" ∉ df.cols then m
      else { m with duration_violations :=
        (some ((df.rows.filter (fun r => effPassDuration df.cols r == some false)).length)) } := by
  rw [validate_trip_duration_eq]

theorem validate_tip_percentage_fst (m : QualityMetrics) (df : DataFrame) :
    (DataQualityChecker.validate_tip_percentage m df).1 =
      if "tip_percentage" ∉ df.cols then m
      else { m with tip_percentage_violations :=
        (some ((df.rows.filter (fun r => effPassTip df.cols r == some false)).length)) } := by
  rw [validate_tip_percentage_eq]

theorem run_all_checks_metrics_sum (df : DataFrame) :
    (DataQualityChecker.run_all_checks freshMetrics df).1.sumValues =
      sumBatches (runRules (dqRules df.cols) df.rows).2 := by
  unfold DataQualityChecker.run_all_checks
  simp only [check_null_values_snd]
  simp only [validate_numeric_ranges_snd]
  simp only [validate_datetime_logic_snd]
  by_cases hdur : "trip_duration_minutes" ∈ df.cols <;>
    by_cases htip : "tip_percentage" ∈ df.cols <;>
    simp only [hdur, htip, if_true, if_false, validate_trip_duration_snd,
      validate_tip_percentage_snd, validate_tip_percentage_fst,
      validate_trip_duration_fst, validate_datetime_logic_fst,
      validate_numeric_ranges_fst, check_null_values_fst, runRules, dqRules,
      sumBatches_append, sumBatches_opt] <;>
    split_ifs <;>
    simp_all [QualityMetrics.sumValues, freshMetrics, sumBatches, effPassNull,
      effPassDatetime, effPassDuration, effPassTip] <;>
    omega

theorem glue_checks_result (df : DataFrame) :
    GlueETL.run_data_quality_checks df =
      if df.rows.length = 0 then Except.error "ZeroDivisionError"
      else Except.ok (⟨df.cols, (runRules (glueRules df.cols) df.rows).1⟩,
        (runRules (glueRules df.cols) df.rows).2) := by
  unfold GlueETL.run_data_quality_checks
  by_cases hnull : GlueETL.glueRequiredFields.filter (· ∈ df.cols) = [] <;>
    by_cases hdur : "trip_duration_minutes" ∈ df.cols <;>
    by_cases htip : "tip_percentage" ∈ df.cols <;>
    simp only [hnull, hdur, htip, if_true, if_false, runRules, glueRules,
      List.append_assoc, List.append_nil, List.nil_append] <;>
    simp [effPassGlueNull, effPassDuration, effPassTip, hnull, hdur, htip,
      not3_beq_true, not3_beq_false, List.append_assoc]

/-! ### Claim theorems -/

/-- C6: `add_derived_columns` removes no record; for every record the derived
`trip_duration_minutes` equals dropoff minus pickup in minutes and is absent
(null, never zero) when either timestamp is missing, and `tip_percentage`
equals `tip_amount / fare_amount * 100` when the fare is positive and `0`
otherwise (fare non-positive or null). -/
theorem add_derived_columns_spec (df : DataFrame) :
    (GlueETL.add_derived_columns df).rows = df.rows.map GlueETL.deriveRecord ∧
    (GlueETL.add_derived_columns df).rows.length = df.rows.length ∧
    ∀ r : Record,
      (∀ p d : Int, r.tpep_pickup_datetime = some p → r.tpep_dropoff_datetime = some d →
        (GlueETL.deriveRecord r).trip_duration_minutes = some (((d : ℚ) - (p : ℚ)) / 60)) ∧
      ((r.tpep_pickup_datetime = none ∨ r.tpep_dropoff_datetime = none) →
        (GlueETL.deriveRecord r).trip_duration_minutes = none) ∧
      (∀ f : ℚ, r.fare_amount = some f → 0 < f →
        (GlueETL.deriveRecord r).tip_percentage = r.tip_amount.map (fun t => t / f * 100)) ∧
      (∀ f : ℚ, r.fare_amount = some f → f ≤ 0 →
        (GlueETL.deriveRecord r).tip_percentage = some 0) ∧
      (r.fare_amount = none → (GlueETL.deriveRecord r).tip_percentage = some 0) := by
  refine ⟨rfl, by simp [GlueETL.add_derived_columns], fun r => ⟨?_, ?_, ?_, ?_, ?_⟩⟩
  · intro p d hp hd
    simp [GlueETL.deriveRecord, hp, hd]
  · rintro (h | h)
    · rcases hd : r.tpep_dropoff_datetime with _ | d <;>
        simp [GlueETL.deriveRecord, h, hd]
    · rcases hp : r.tpep_pickup_datetime with _ | p <;>
        simp [GlueETL.deriveRecord, h, hp]
  · intro f hf hpos
    rcases ht : r.tip_amount with _ | t <;>
      simp [GlueETL.deriveRecord, gtQ, hf, ht, hpos]
  · intro f hf hnonpos
    have hx : ¬ (0 : ℚ) < f := not_lt.mpr hnonpos
    simp [GlueETL.deriveRecord, gtQ, hf, hx]
  · intro hf
    simp [GlueETL.deriveRecord, gtQ, hf]

/-- Witness for C6 at concrete rows: a 600-second trip yields 10 minutes, a
missing pickup yields an absent duration, a 10-unit fare with a 1-unit tip
yields 10 percent, and a zero fare yields 0. -/
theorem add_derived_columns_spec_witness :
    (GlueETL.deriveRecord recValid).trip_duration_minutes = some (((600 : ℚ) - (0 : ℚ)) / 60) ∧
    (GlueETL.deriveRecord { recValid with tpep_pickup_datetime := none }).trip_duration_minutes = none ∧
    (GlueETL.deriveRecord recValid).tip_percentage = (recValid.tip_amount.map (fun t => t / 10 * 100)) ∧
    (GlueETL.deriveRecord { recValid with fare_amount := some 0 }).tip_percentage = some 0 :=
  ⟨((add_derived_columns_spec ⟨baseCols, [recValid]⟩).2.2 recValid).1 0 600 rfl rfl,
   ((add_derived_columns_spec ⟨baseCols, [recValid]⟩).2.2 _).2.1 (Or.inl rfl),
   ((add_derived_columns_spec ⟨baseCols, [recValid]⟩).2.2 recValid).2.2.1 10 rfl (by norm_num),
   (((add_derived_columns_spec ⟨baseCols, [recValid]⟩).2.2 _).2.2.2.1) 0 rfl le_rfl⟩

/-- C8: when the derived column a rule depends on is missing from the schema,
`validate_trip_duration` (resp. `validate_tip_percentage`) returns the input
frame unchanged as valid with an empty invalid frame and leaves the metrics
dict untouched. -/
theorem derived_rule_skip (m : QualityMetrics) (df : DataFrame) :
    ("trip_duration_minutes" ∉ df.cols →
      DataQualityChecker.validate_trip_duration m df =
        (m, df, ⟨"invalid_trip_duration", []⟩)) ∧
    ("tip_percentage" ∉ df.cols →
      DataQualityChecker.validate_tip_percentage m df =
        (m, df, ⟨"invalid_tip_percentage", []⟩)) := by
  constructor <;> intro h <;>
    simp [DataQualityChecker.validate_trip_duration,
      DataQualityChecker.validate_tip_percentage, h]

/-- Witness for C8 on a frame with only the ten raw columns. -/
theorem derived_rule_skip_witness :
    DataQualityChecker.validate_trip_duration freshMetrics dfNullTip =
      (freshMetrics, dfNullTip, ⟨"invalid_trip_duration", []⟩) ∧
    DataQualityChecker.validate_tip_percentage freshMetrics dfNullTip =
      (freshMetrics, dfNullTip, ⟨"invalid_tip_percentage", []⟩) :=
  ⟨(derived_rule_skip freshMetrics dfNullTip).1 (by decide),
   (derived_rule_skip freshMetrics dfNullTip).2 (by decide)⟩

/-- An all-empty batch list combines to no rows. -/
theorem combineInvalid_nil (batches : List TaggedBatch)
    (h : (batches.isEmpty || batches.all (fun b => b.rows.isEmpty)) = true) :
    combineInvalid batches = [] := by
  rcases (by simpa using h : batches = [] ∨ ∀ b ∈ batches, b.rows = []) with rfl | h2
  · rfl
  · unfold combineInvalid
    have hf : batches.filter (fun b => !b.rows.isEmpty) = [] :=
      List.filter_eq_nil_iff.mpr fun b hb => by simp [h2 b hb]
    rw [hf]; rfl

/-- C4: when the invalid-batch list is empty or every batch in it is empty,
both dead-letter-queue writers return with the quarantine store untouched —
zero write calls reach the sink. -/
theorem dlq_no_write_on_empty (sinkOk : Bool) (st : Store) (bucket : String)
    (now : Date) (nowRunId rid : String) (run_id : Option String)
    (batches : List TaggedBatch)
    (h : batches = [] ∨ ∀ b ∈ batches, b.rows = []) :
    DataQualityChecker.write_to_dead_letter_queue sinkOk st bucket now nowRunId
        run_id batches = Except.ok st ∧
    GlueETL.write_to_dead_letter_queue sinkOk st bucket rid now batches =
      Except.ok st := by
  have hg : (batches.isEmpty || batches.all (fun b => b.rows.isEmpty)) = true := by
    rcases h with rfl | h
    · rfl
    · simp only [Bool.or_eq_true, List.all_eq_true]
      exact Or.inr (fun b hb => by simp [h b hb])
  constructor <;>
    simp [DataQualityChecker.write_to_dead_letter_queue,
      GlueETL.write_to_dead_letter_queue, hg]

/-- Witness for C4: the empty batch list produces no write. -/
theorem dlq_no_write_on_empty_witness :
    DataQualityChecker.write_to_dead_letter_queue true ([] : Store) "bkt" ⟨2024, 7⟩
        "20240701" none [] = Except.ok ([] : Store) ∧
    GlueETL.write_to_dead_letter_queue true ([] : Store) "bkt" "r1" ⟨2024, 7⟩ [] =
      Except.ok ([] : Store) :=
  dlq_no_write_on_empty true ([] : Store) "bkt" ⟨2024, 7⟩ "20240701" "r1" none []
    (Or.inl rfl)

/-- C5 counterexample: with a failing sink and one rejected record, the
checker's `write_to_dead_letter_queue` logs and then re-raises — the call
propagates the error instead of returning normally. -/
theorem checker_dlq_raises_cx :
    DataQualityChecker.write_to_dead_letter_queue false ([] : Store) "bkt" ⟨2024, 7⟩
        "20240701" (some "r1") [⟨"numeric_range_violation", [recValid]⟩] =
      Except.error "Error writing to DLQ" := by
  rfl

/-- C5 amended: the glue job's writer catches a sink failure and returns
normally, and in the driver's write phase the accepted rows are still
delivered to the output sink afterwards, whatever the quarantine sink did. -/
theorem glue_dlq_nonfatal (sinkOk : Bool) (st : Store) (bucket run_id : String)
    (now : Date) (df : DataFrame) (batches : List TaggedBatch) :
    ∃ st2 : Store, GlueETL.writePhase sinkOk st bucket run_id now df batches =
      Except.ok (st2, [df.rows]) := by
  unfold GlueETL.writePhase GlueETL.write_to_dead_letter_queue
  by_cases h1 : (batches.isEmpty || batches.all (fun b => b.rows.isEmpty)) = true
  · exact ⟨st, by simp [h1]; rfl⟩
  · by_cases h2 : (combineInvalid batches).isEmpty = true
    · exact ⟨st, by simp [h1, h2, Except.bind]⟩
    · cases sinkOk
      · exact ⟨st, by simp [h1, h2, Except.bind]⟩
      · exact ⟨storeWrite st ⟨bucket, now.year, now.month, run_id⟩ run_id
          (combineInvalid batches), by simp [h1, h2, Except.bind]⟩

/-- C7 counterexample: two successive quarantine writes with the same run_id
and destination — the second write (overwrite mode) deletes the entries the
first one persisted, so entries are not write-once. -/
theorem dlq_overwrite_cx :
    (DataQualityChecker.write_to_dead_letter_queue true ([] : Store) "bkt" ⟨2024, 7⟩
        "20240701" (some "r1") [⟨"numeric_range_violation", [recValid]⟩]).bind
      (fun st1 => DataQualityChecker.write_to_dead_letter_queue true st1 "bkt" ⟨2024, 7⟩
        "20240701" (some "r1") [⟨"invalid_datetime_sequence", [recBadDt]⟩]) =
      Except.ok [(⟨"bkt", 2024, 7, "r1"⟩, "r1", [recBadDt])] ∧
    recValid ∉ ([recBadDt] : List Record) := by
  constructor
  · rfl
  · decide

/-- Looking a key up after filtering another key away is the original lookup. -/
theorem find_filter_other (st : List (DlqPath × String × List Record))
    (p q : DlqPath) (hq : q ≠ p) :
    (st.filter (fun e => !(e.1 == p))).find? (fun e => e.1 == q) =
      st.find? (fun e => e.1 == q) := by
  induction st with
  | nil => rfl
  | cons e st ih =>
    by_cases hep : e.1 = p
    · have h2 : (p == q) = false :=
        beq_eq_false_iff_ne.mpr (fun hh => hq hh.symm)
      simp [List.filter_cons, hep, List.find?_cons, h2, ih]
    · by_cases heq : e.1 = q
      · simp [List.filter_cons, beq_eq_false_iff_ne.mpr hep, List.find?_cons,
          beq_iff_eq.mpr heq, hep]
      · simp [List.filter_cons, beq_eq_false_iff_ne.mpr hep, List.find?_cons,
          beq_eq_false_iff_ne.mpr heq, ih]

/-- C7 amended: a quarantine write touches exactly its destination path
`{bucket, year, month, run_id}`: every other path keeps its previous
contents (so distinct run_ids never disturb each other), while the
destination path itself is explicitly replaced (overwrite mode) with the
newly combined batch stamped with the run id. -/
theorem dlq_write_semantics (st : Store) (bucket : String) (now : Date)
    (nowRunId : String) (run_id : Option String) (batches : List TaggedBatch)
    (q : DlqPath) (st2 : Store)
    (hok : DataQualityChecker.write_to_dead_letter_queue true st bucket now
      nowRunId run_id batches = Except.ok st2) :
    (q ≠ ⟨bucket, now.year, now.month, run_id.getD nowRunId⟩ →
      storeLookup st2 q = storeLookup st q) ∧
    (combineInvalid batches ≠ [] →
      storeLookup st2 ⟨bucket, now.year, now.month, run_id.getD nowRunId⟩ =
        some (run_id.getD nowRunId, combineInvalid batches)) := by
  unfold DataQualityChecker.write_to_dead_letter_queue at hok
  by_cases h1 : (batches.isEmpty || batches.all (fun b => b.rows.isEmpty)) = true
  · rw [if_pos h1] at hok
    rcases Except.ok.inj hok with rfl
    exact ⟨fun _ => rfl, fun hne => absurd (combineInvalid_nil batches h1) hne⟩
  · rw [if_neg h1] at hok
    by_cases h2 : (combineInvalid batches).isEmpty = true
    · rw [if_pos h2] at hok
      rcases Except.ok.inj hok with rfl
      exact ⟨fun _ => rfl, fun hne => absurd (List.isEmpty_iff.mp h2) hne⟩
    · rw [if_neg h2, if_pos rfl] at hok
      rcases Except.ok.inj hok with rfl
      constructor
      · intro hq
        unfold storeLookup storeWrite
        have hh : ((⟨bucket, now.year, now.month, run_id.getD nowRunId⟩ : DlqPath) == q) = false := by
          refine beq_eq_false_iff_ne.mpr ?_
          exact fun hh => hq hh.symm
        simp [List.find?_cons, hh, find_filter_other st _ q hq]
      · intro _
        unfold storeLookup storeWrite
        simp [List.find?_cons]

/-- Witness for C7 amended: writing run r1 in July leaves June's r0 partition
untouched and installs r1's contents at its own path. -/
theorem dlq_write_semantics_witness :
    storeLookup [((⟨"bkt", 2024, 7, "r1"⟩ : DlqPath), "r1", [recBadDt]),
        (⟨"bkt", 2024, 6, "r0"⟩, "r0", [recValid])] ⟨"bkt", 2024, 6, "r0"⟩ =
      storeLookup [((⟨"bkt", 2024, 6, "r0"⟩ : DlqPath), "r0", [recValid])]
        ⟨"bkt", 2024, 6, "r0"⟩ ∧
    storeLookup [((⟨"bkt", 2024, 7, "r1"⟩ : DlqPath), "r1", [recBadDt]),
        (⟨"bkt", 2024, 6, "r0"⟩, "r0", [recValid])] ⟨"bkt", 2024, 7, "r1"⟩ =
      some ("r1", [recBadDt]) := by
  have h := dlq_write_semantics
    ([((⟨"bkt", 2024, 6, "r0"⟩ : DlqPath), "r0", [recValid])] : Store) "bkt"
    ⟨2024, 7⟩ "20240701" (some "r1") [⟨"invalid_datetime_sequence", [recBadDt]⟩]
    ⟨"bkt", 2024, 6, "r0"⟩
    [((⟨"bkt", 2024, 7, "r1"⟩ : DlqPath), "r1", [recBadDt]),
     (⟨"bkt", 2024, 6, "r0"⟩, "r0", [recValid])] (by rfl)
  exact ⟨h.1 (by decide), h.2 (by decide)⟩

/-- C10: on a zero-record input `run_all_checks` runs every rule (the
range-rule metric is recorded as 0) and then, computing the rejection
percentage for the summary, raises `ZeroDivisionError` instead of returning
an empty valid frame and empty invalid list. -/
theorem run_all_checks_empty_raises (m : QualityMetrics) (df : DataFrame)
    (h : df.rows = []) :
    (DataQualityChecker.run_all_checks m df).2 = Except.error "ZeroDivisionError" ∧
    (DataQualityChecker.run_all_checks m df).1.range_violations = some 0 := by
  constructor
  · rw [run_all_checks_result]
    simp [h]
  · unfold DataQualityChecker.run_all_checks
    simp only [check_null_values_snd, validate_numeric_ranges_snd,
      validate_datetime_logic_snd]
    by_cases hdur : "trip_duration_minutes" ∈ df.cols <;>
      by_cases htip : "tip_percentage" ∈ df.cols <;>
      simp only [hdur, htip, if_true, if_false, validate_trip_duration_snd,
        validate_tip_percentage_snd, validate_tip_percentage_fst,
        validate_trip_duration_fst, validate_datetime_logic_fst,
        validate_numeric_ranges_fst, check_null_values_fst, h] <;>
      split_ifs <;>
      simp_all

/-- Witness for C10 on the concrete empty frame with the raw schema. -/
theorem run_all_checks_empty_raises_witness :
    (DataQualityChecker.run_all_checks freshMetrics ⟨baseCols, []⟩).2 =
      Except.error "ZeroDivisionError" ∧
    (DataQualityChecker.run_all_checks freshMetrics ⟨baseCols, []⟩).1.range_violations =
      some 0 :=
  run_all_checks_empty_raises freshMetrics ⟨baseCols, []⟩ rfl

theorem and3_false_left (b : Option Bool) : and3 (some false) b = some false := by
  rcases b with _ | b
  · rfl
  · cases b <;> rfl

theorem and3_false_right (a : Option Bool) : and3 a (some false) = some false := by
  rcases a with _ | b
  · rfl
  · cases b <;> rfl

/-- The null-check condition is always decisive (an OR of `isNull` tests). -/
theorem effPassNull_ne_none (cols : List String) (r : Record) :
    effPassNull cols r ≠ none := by
  unfold effPassNull
  split
  · exact fun h => Option.noConfusion h
  · simp [not3, DataQualityChecker.nullCond]

/-- C1 amended: every rule evaluation returns disjoint valid and invalid
outputs; `check_null_values` always splits the input exactly
(`valid.count + invalid.count = input.count`), while for the four other rules
the counts sum to at most the input count, with equality whenever the rule's
condition is non-null on every input record — a record holding a null in a
tested non-required numeric or datetime field satisfies neither filter and is
dropped from both outputs, so there the sum falls short. -/
theorem rule_partition (m : QualityMetrics) (df : DataFrame) :
    ((∀ r ∈ (DataQualityChecker.check_null_values m df).2.1.rows,
        r ∉ (DataQualityChecker.check_null_values m df).2.2.rows) ∧
      (DataQualityChecker.check_null_values m df).2.1.rows.length +
        (DataQualityChecker.check_null_values m df).2.2.rows.length =
        df.rows.length) ∧
    ((∀ r ∈ (DataQualityChecker.validate_numeric_ranges m df).2.1.rows,
        r ∉ (DataQualityChecker.validate_numeric_ranges m df).2.2.rows) ∧
      (DataQualityChecker.validate_numeric_ranges m df).2.1.rows.length +
        (DataQualityChecker.validate_numeric_ranges m df).2.2.rows.length ≤
        df.rows.length ∧
      ((∀ r ∈ df.rows, effPassRange df.cols r ≠ none) →
        (DataQualityChecker.validate_numeric_ranges m df).2.1.rows.length +
          (DataQualityChecker.validate_numeric_ranges m df).2.2.rows.length =
          df.rows.length)) ∧
    ((∀ r ∈ (DataQualityChecker.validate_datetime_logic m df).2.1.rows,
        r ∉ (DataQualityChecker.validate_datetime_logic m df).2.2.rows) ∧
      (DataQualityChecker.validate_datetime_logic m df).2.1.rows.length +
        (DataQualityChecker.validate_datetime_logic m df).2.2.rows.length ≤
        df.rows.length ∧
      ((∀ r ∈ df.rows, effPassDatetime df.cols r ≠ none) →
        (DataQualityChecker.validate_datetime_logic m df).2.1.rows.length +
          (DataQualityChecker.validate_datetime_logic m df).2.2.rows.length =
          df.rows.length)) ∧
    ((∀ r ∈ (DataQualityChecker.validate_trip_duration m df).2.1.rows,
        r ∉ (DataQualityChecker.validate_trip_duration m df).2.2.rows) ∧
      (DataQualityChecker.validate_trip_duration m df).2.1.rows.length +
        (DataQualityChecker.validate_trip_duration m df).2.2.rows.length ≤
        df.rows.length ∧
      ((∀ r ∈ df.rows, effPassDuration df.cols r ≠ none) →
        (DataQualityChecker.validate_trip_duration m df).2.1.rows.length +
          (DataQualityChecker.validate_trip_duration m df).2.2.rows.length =
          df.rows.length)) ∧
    ((∀ r ∈ (DataQualityChecker.validate_tip_percentage m df).2.1.rows,
        r ∉ (DataQualityChecker.validate_tip_percentage m df).2.2.rows) ∧
      (DataQualityChecker.validate_tip_percentage m df).2.1.rows.length +
        (DataQualityChecker.validate_tip_percentage m df).2.2.rows.length ≤
        df.rows.length ∧
      ((∀ r ∈ df.rows, effPassTip df.cols r ≠ none) →
        (DataQualityChecker.validate_tip_percentage m df).2.1.rows.length +
          (DataQualityChecker.validate_tip_percentage m df).2.2.rows.length =
          df.rows.length)) := by
  refine ⟨⟨?_, ?_⟩, ⟨?_, ?_, ?_⟩, ⟨?_, ?_, ?_⟩, ⟨?_, ?_, ?_⟩, ⟨?_, ?_, ?_⟩⟩ <;>
    simp only [check_null_values_snd, validate_numeric_ranges_snd,
      validate_datetime_logic_snd, validate_trip_duration_snd,
      validate_tip_percentage_snd]
  · exact fun r hr => filter_pair_disj _ _ r hr
  · exact filter_pair_eq _ _ (fun r _ => effPassNull_ne_none df.cols r)
  · exact fun r hr => filter_pair_disj _ _ r hr
  · exact filter_pair_le _ _
  · exact fun hd => filter_pair_eq _ _ hd
  · exact fun r hr => filter_pair_disj _ _ r hr
  · exact filter_pair_le _ _
  · exact fun hd => filter_pair_eq _ _ hd
  · exact fun r hr => filter_pair_disj _ _ r hr
  · exact filter_pair_le _ _
  · exact fun hd => filter_pair_eq _ _ hd
  · exact fun r hr => filter_pair_disj _ _ r hr
  · exact filter_pair_le _ _
  · exact fun hd => filter_pair_eq _ _ hd

/-- Witness for C1 amended: on a one-record frame with decisive conditions
the numeric-range rule splits exactly. -/
theorem rule_partition_witness :
    (DataQualityChecker.validate_numeric_ranges freshMetrics
        ⟨baseCols, [recValid]⟩).2.1.rows.length +
      (DataQualityChecker.validate_numeric_ranges freshMetrics
        ⟨baseCols, [recValid]⟩).2.2.rows.length =
      (⟨baseCols, [recValid]⟩ : DataFrame).rows.length :=
  (rule_partition freshMetrics ⟨baseCols, [recValid]⟩).2.1.2.2 (by
    norm_num +decide [effPassRange, DataQualityChecker.rangeCond,
      DataQualityChecker.NUMERIC_RANGES, baseCols, recValid, numField, geQ, leQ, and3])

/-- C1 counterexample: `validate_numeric_ranges` on one record whose
non-required `tip_amount` is NULL drops the record from both outputs —
`valid.count + invalid.count = 0` against an input count of 1, and the claimed
partition fails. -/
theorem rule_partition_cx :
    (DataQualityChecker.validate_numeric_ranges freshMetrics dfNullTip).2.1.rows = [] ∧
    (DataQualityChecker.validate_numeric_ranges freshMetrics dfNullTip).2.2.rows = [] ∧
    dfNullTip.rows.length = 1 := by
  refine ⟨?_, ?_, rfl⟩ <;>
    norm_num +decide [DataQualityChecker.validate_numeric_ranges,
      DataQualityChecker.rangeCond, DataQualityChecker.NUMERIC_RANGES, dfNullTip,
      recNullTip, recValid, baseCols, numField, geQ, leQ, and3, not3]

/-- C2: `run_all_checks` chains the five rules in fixed order, each receiving
only the previous rule's valid records; hence a record of the input that
passes the first `i` rules and fails rule `i` appears in exactly one invalid
batch of the returned list — the one carrying rule `i`'s failure reason. -/
theorem run_all_checks_single_attribution (m : QualityMetrics) (df : DataFrame)
    (r : Record) (i : Nat) (hi : i < (dqRules df.cols).length)
    (hpass : ∀ j, (hj : j < i) →
      ((dqRules df.cols).get ⟨j, Nat.lt_trans hj hi⟩).cond r = some true)
    (hfail : ((dqRules df.cols).get ⟨i, hi⟩).cond r = some false)
    (hr : r ∈ df.rows) (v : DataFrame) (batches : List TaggedBatch)
    (hok : (DataQualityChecker.run_all_checks m df).2 = Except.ok (v, batches)) :
    batches.countP (fun b => decide (r ∈ b.rows)) = 1 ∧
      ∀ b ∈ batches, r ∈ b.rows →
        b.reason = ((dqRules df.cols).get ⟨i, hi⟩).reason := by
  rw [run_all_checks_result] at hok
  have hne : ¬ df.rows.length = 0 := by
    intro h0
    rw [List.length_eq_zero.mp h0] at hr
    exact absurd hr (List.not_mem_nil r)
  rw [if_neg hne] at hok
  have h2 := Except.ok.inj hok
  have hbatch : batches = (runRules (dqRules df.cols) df.rows).2 :=
    (congrArg Prod.snd h2).symm
  rw [hbatch]
  exact runRules_first_fail (dqRules df.cols) df.rows r i hi hpass hfail hr

/-- Witness for C2: a record with dropoff before pickup passes the null and
range rules, fails the datetime rule (index 2), and lands exactly in the
`invalid_datetime_sequence` batch. -/
theorem run_all_checks_single_attribution_witness :
    ([⟨"invalid_datetime_sequence", [recBadDt]⟩] : List TaggedBatch).countP
        (fun b => decide (recBadDt ∈ b.rows)) = 1 ∧
      ∀ b ∈ ([⟨"invalid_datetime_sequence", [recBadDt]⟩] : List TaggedBatch),
        recBadDt ∈ b.rows →
          b.reason = ((dqRules baseCols).get ⟨2, by norm_num [dqRules]⟩).reason := by
  refine run_all_checks_single_attribution freshMetrics ⟨baseCols, [recBadDt]⟩
    recBadDt 2 (by norm_num [dqRules]) ?_ ?_ (by norm_num [baseCols])
    ⟨baseCols, []⟩ [⟨"invalid_datetime_sequence", [recBadDt]⟩] ?_
  · intro j hj
    interval_cases j <;>
      norm_num +decide [dqRules, effPassNull, effPassRange,
        DataQualityChecker.nullCond, DataQualityChecker.rangeCond,
        DataQualityChecker.NUMERIC_RANGES, DataQualityChecker.REQUIRED_FIELDS,
        baseCols, recBadDt, recValid, fieldIsNull, numField, geQ, leQ, and3,
        or3, not3]
  · norm_num +decide [dqRules, effPassDatetime, DataQualityChecker.dtCond,
      baseCols, recBadDt, recValid, gtTs]
  · rw [run_all_checks_result]
    norm_num +decide [runRules, dqRules, effPassNull, effPassRange,
      effPassDatetime, effPassDuration, effPassTip, DataQualityChecker.nullCond,
      DataQualityChecker.rangeCond, DataQualityChecker.NUMERIC_RANGES,
      DataQualityChecker.REQUIRED_FIELDS, DataQualityChecker.dtCond, baseCols,
      recBadDt, recValid, fieldIsNull, numField, geQ, leQ, gtTs, and3, or3, not3]

/-- C3 counterexample: on a one-record input whose `tip_amount` is NULL the
run returns an empty valid frame and no invalid batch, every recorded metric
is 0, yet `processed − passed = 1`: the metric sum undercounts because the
record vanished at the numeric-range rule without being attributed anywhere. -/
theorem metric_sum_cx :
    (DataQualityChecker.run_all_checks freshMetrics dfNullTip).2 =
      Except.ok ((⟨baseCols, []⟩ : DataFrame), ([] : List TaggedBatch)) ∧
    (DataQualityChecker.run_all_checks freshMetrics dfNullTip).1.sumValues = 0 ∧
    dfNullTip.rows.length - (⟨baseCols, []⟩ : DataFrame).rows.length = 1 := by
  refine ⟨?_, ?_, rfl⟩
  · rw [run_all_checks_result]
    norm_num +decide [runRules, dqRules, effPassNull, effPassRange,
      effPassDatetime, effPassDuration, effPassTip, DataQualityChecker.nullCond,
      DataQualityChecker.rangeCond, DataQualityChecker.NUMERIC_RANGES,
      DataQualityChecker.REQUIRED_FIELDS, DataQualityChecker.dtCond, baseCols,
      dfNullTip, recNullTip, recValid, fieldIsNull, numField, geQ, leQ, gtTs,
      and3, or3, not3]
  · rw [run_all_checks_metrics_sum]
    norm_num +decide [runRules, dqRules, sumBatches, effPassNull, effPassRange,
      effPassDatetime, effPassDuration, effPassTip, DataQualityChecker.nullCond,
      DataQualityChecker.rangeCond, DataQualityChecker.NUMERIC_RANGES,
      DataQualityChecker.REQUIRED_FIELDS, DataQualityChecker.dtCond, baseCols,
      dfNullTip, recNullTip, recValid, fieldIsNull, numField, geQ, leQ, gtTs,
      and3, or3, not3]

/-- C3 amended: for a fresh checker the sum of the recorded per-rule counts
is at most `processed − passed`, and equals it whenever every rule condition
evaluates non-null on every input record (in particular when no record holds
a null in a tested field); records with null-valued conditions are dropped
uncounted, making the inequality strict. -/
theorem metric_sum_amended (df : DataFrame) (v : DataFrame)
    (batches : List TaggedBatch)
    (hok : (DataQualityChecker.run_all_checks freshMetrics df).2 =
      Except.ok (v, batches)) :
    (DataQualityChecker.run_all_checks freshMetrics df).1.sumValues ≤
      df.rows.length - v.rows.length ∧
    ((∀ rule ∈ dqRules df.cols, ∀ r ∈ df.rows, rule.cond r ≠ none) →
      (DataQualityChecker.run_all_checks freshMetrics df).1.sumValues =
        df.rows.length - v.rows.length) := by
  rw [run_all_checks_result] at hok
  by_cases h0 : df.rows.length = 0
  · rw [if_pos h0] at hok
    exact absurd hok (by simp)
  · rw [if_neg h0] at hok
    have h2 := Except.ok.inj hok
    have hv : v.rows = (runRules (dqRules df.cols) df.rows).1 := by
      have h3 : (⟨df.cols, (runRules (dqRules df.cols) df.rows).1⟩ : DataFrame) = v :=
        congrArg Prod.fst h2
    -- rows of both sides
      exact (congrArg DataFrame.rows h3).symm
    rw [run_all_checks_metrics_sum, hv]
    have hle := runRules_count_le (dqRules df.cols) df.rows
    refine ⟨by omega, fun hdec => ?_⟩
    have heq := runRules_count_eq (dqRules df.cols) df.rows hdec
    omega

/-- Witness for C3 amended: a clean one-record run has metric sum
`processed − passed = 0`, every condition being decisive. -/
theorem metric_sum_amended_witness :
    (DataQualityChecker.run_all_checks freshMetrics ⟨baseCols, [recValid]⟩).1.sumValues =
      (⟨baseCols, [recValid]⟩ : DataFrame).rows.length -
        (⟨baseCols, [recValid]⟩ : DataFrame).rows.length := by
  refine (metric_sum_amended ⟨baseCols, [recValid]⟩ ⟨baseCols, [recValid]⟩ [] ?_).2 ?_
  · rw [run_all_checks_result]
    norm_num +decide [runRules, dqRules, effPassNull, effPassRange,
      effPassDatetime, effPassDuration, effPassTip, DataQualityChecker.nullCond,
      DataQualityChecker.rangeCond, DataQualityChecker.NUMERIC_RANGES,
      DataQualityChecker.REQUIRED_FIELDS, DataQualityChecker.dtCond, baseCols,
      recValid, fieldIsNull, numField, geQ, leQ, gtTs, and3, or3, not3]
  · intro rule hrule r hrow
    fin_cases hrule <;> fin_cases hrow <;>
      norm_num +decide [effPassNull, effPassRange, effPassDatetime,
        effPassDuration, effPassTip, DataQualityChecker.nullCond,
        DataQualityChecker.rangeCond, DataQualityChecker.NUMERIC_RANGES,
        DataQualityChecker.REQUIRED_FIELDS, DataQualityChecker.dtCond, baseCols,
        recValid, fieldIsNull, numField, geQ, leQ, gtTs, and3, or3, not3]

/-- C9: a record with non-positive trip distance, fare or passenger count, or
with dropoff not strictly after pickup, is removed by the driver's
`filter_invalid_records` (which runs before the quality checks) with no
tagging and nothing added: the output rows are a subset of the input rows,
and downstream the record appears in no invalid batch and no valid frame of
`run_data_quality_checks` — it is silently discarded. -/
theorem filter_invalid_records_silent (df : DataFrame) (r : Record)
    (hr : r ∈ df.rows)
    (hbad : (∃ x : ℚ, r.trip_distance = some x ∧ x ≤ 0) ∨
      (∃ x : ℚ, r.fare_amount = some x ∧ x ≤ 0) ∨
      (∃ x : ℚ, r.passenger_count = some x ∧ x ≤ 0) ∨
      (∃ p d : Int, r.tpep_pickup_datetime = some p ∧
        r.tpep_dropoff_datetime = some d ∧ ¬ p < d)) :
    r ∉ (GlueETL.filter_invalid_records df).rows ∧
    (∀ x ∈ (GlueETL.filter_invalid_records df).rows, x ∈ df.rows) ∧
    ∀ v batches,
      GlueETL.run_data_quality_checks (GlueETL.filter_invalid_records df) =
        Except.ok (v, batches) →
      (∀ b ∈ batches, r ∉ b.rows) ∧ r ∉ v.rows := by
  have hfalse : GlueETL.basicCond r = some false := by
    unfold GlueETL.basicCond
    rcases hbad with ⟨x, hx, hx0⟩ | ⟨x, hx, hx0⟩ | ⟨x, hx, hx0⟩ | ⟨p, d, hp, hd, hpd⟩
    · rw [show gtQ r.trip_distance 0 = some false from by
        simp [gtQ, hx, not_lt.mpr hx0]]
      rw [and3_false_left, and3_false_left, and3_false_left]
    · rw [show gtQ r.fare_amount 0 = some false from by
        simp [gtQ, hx, not_lt.mpr hx0]]
      rw [and3_false_right, and3_false_left, and3_false_left]
    · rw [show gtQ r.passenger_count 0 = some false from by
        simp [gtQ, hx, not_lt.mpr hx0]]
      rw [and3_false_right, and3_false_left]
    · rw [show gtTs r.tpep_dropoff_datetime r.tpep_pickup_datetime = some false from by
        simp [gtTs, hp, hd, hpd]]
      rw [and3_false_right]
  have h1 : r ∉ (GlueETL.filter_invalid_records df).rows := by
    intro hm
    have := (List.mem_filter.mp hm).2
    simp [hfalse] at this
  refine ⟨h1, fun x hx => (List.mem_filter.mp hx).1, ?_⟩
  intro v batches hok
  rw [glue_checks_result] at hok
  by_cases h0 : (GlueETL.filter_invalid_records df).rows.length = 0
  · rw [if_pos h0] at hok
    exact absurd hok (by simp)
  · rw [if_neg h0] at hok
    have h2 := Except.ok.inj hok
    have hnotin := runRules_notin
      (glueRules (GlueETL.filter_invalid_records df).cols)
      (GlueETL.filter_invalid_records df).rows r h1
    constructor
    · intro b hbmem
      have hbatch : batches = (runRules
          (glueRules (GlueETL.filter_invalid_records df).cols)
          (GlueETL.filter_invalid_records df).rows).2 :=
        (congrArg Prod.snd h2).symm
      rw [hbatch] at hbmem
      exact hnotin.2 b hbmem
    · have hv : v.rows = (runRules
          (glueRules (GlueETL.filter_invalid_records df).cols)
          (GlueETL.filter_invalid_records df).rows).1 := by
        have h3 := congrArg Prod.fst h2
        exact (congrArg DataFrame.rows h3).symm
      rw [hv]
      exact hnotin.1

/-- Witness for C9: a zero-distance record is dropped by the basic filter
while a clean companion record passes. -/
theorem filter_invalid_records_silent_witness :
    recBadDist ∉
      (GlueETL.filter_invalid_records ⟨baseCols, [recValid, recBadDist]⟩).rows :=
  (filter_invalid_records_silent ⟨baseCols, [recValid, recBadDist]⟩ recBadDist
    (by norm_num) (Or.inl ⟨0, rfl, le_rfl⟩)).1
